import Mathlib

/-!
Verification of the sector money-flow pipeline (`update_data.py` / `main.py`).

Shallow embedding conventions:
* Calendar dates are `ℕ` (days since the Unix epoch); the Yahoo payload's
  second-resolution timestamps are converted with `t / 86400`, mirroring
  `pd.to_datetime(t, unit='s').date()`.
* Prices and volumes are `ℚ` (the Python code uses floats; none of the claims
  turn on float rounding error, and degenerate float values such as inf/NaN
  are excluded by explicit positivity hypotheses where division occurs).
* The network, the filesystem and `datetime.date.today()` are inputs: a fetch
  attempt is an `Upstream` value, caches are explicit arguments, `today` is a
  `ℕ` parameter.  Writes to durable storage are returned as explicit fields
  (`saved` below) rather than performed.
-/

namespace SectorMoneyFlow

/-- One trading day of one symbol: a row of the per-symbol cache CSV /
of the `new_df` built from the Yahoo payload.  The Python `open` column is
`open_` (Lean keyword). -/
structure PriceRecord where
  date : ℕ
  open_ : ℚ
  high : ℚ
  low : ℚ
  close : ℚ
  volume : ℚ
deriving DecidableEq

/-- The `indicators['quote'][0]` dict of a Yahoo chart payload when it is
non-empty (truthy).  Each field is `indicators.get(key, [])`: a column that may
be absent (empty list) or contain nulls (`none` entries, dropped by
`dropna`). -/
structure Quote where
  open_ : List (Option ℚ)
  high : List (Option ℚ)
  low : List (Option ℚ)
  close : List (Option ℚ)
  volume : List (Option ℚ)
deriving DecidableEq

/-- `data['chart']['result'][0]` when the `result` list is truthy:
`timestamp` array plus the quote dict (`none` models the falsy empty dict
obtained from the `[{}]` default). -/
structure Chart where
  timestamps : List ℕ
  quote : Option Quote
deriving DecidableEq

/-- Outcome of one `requests.get` to the Yahoo chart endpoint:
`err` is a raised exception (network error / timeout); `resp status chart`
is a reply, with `chart = none` when `data['chart']['result']` is missing or
empty (falsy). -/
inductive Upstream where
  | err : Upstream
  | resp (status : ℕ) (chart : Option Chart) : Upstream
deriving DecidableEq

/-- Do the six parallel payload arrays have equal lengths?  `pd.DataFrame`
raises on unequal column lengths, which the enclosing `try` turns into a
fetch failure. -/
def sameLengths (ts : List ℕ) (q : Quote) : Bool :=
  (q.open_.length = ts.length : Bool) && (q.high.length = ts.length : Bool) &&
  (q.low.length = ts.length : Bool) && (q.close.length = ts.length : Bool) &&
  (q.volume.length = ts.length : Bool)

/-- Build `new_df` from the parallel arrays: zip the six columns row-wise and
drop any row with a missing field (`new_df.dropna()`); the timestamp becomes a
calendar date.  (With `sameLengths` checked, the truncating zip is exact.) -/
def buildRows : List ℕ → List (Option ℚ) → List (Option ℚ) → List (Option ℚ) →
    List (Option ℚ) → List (Option ℚ) → List PriceRecord
  | t :: ts, o :: os, h :: hs, l :: ls, c :: cs, v :: vs =>
    (match o, h, l, c, v with
     | some o, some h, some l, some c, some v =>
       (⟨t / 86400, o, h, l, c, v⟩ : PriceRecord) :: buildRows ts os hs ls cs vs
     | _, _, _, _, _ => buildRows ts os hs ls cs vs)
  | _, _, _, _, _, _ => []

/-- `combined[~combined.index.duplicated(keep='last')]`: keep a row iff no
later row has the same date (so for a duplicated date the last occurrence —
the newly fetched one — survives), preserving the order of kept rows. -/
def dedupKeepLast : List PriceRecord → List PriceRecord
  | [] => []
  | r :: rs =>
    if rs.any (fun s => s.date = r.date) then dedupKeepLast rs
    else r :: dedupKeepLast rs

/-- Date order on price records, used for `combined.sort_index()`. -/
def dateLE (a b : PriceRecord) : Prop := a.date ≤ b.date

instance : DecidableRel dateLE := fun a b => Nat.decLe a.date b.date

instance : IsTotal PriceRecord dateLE := ⟨fun a b => Nat.le_total a.date b.date⟩

instance : IsTrans PriceRecord dateLE := ⟨fun _ _ _ h h' => Nat.le_trans h h'⟩

/-- Lines 87–89 of `update_data.py`: concatenate cached + new rows, drop
duplicate dates keeping the last (newly fetched) occurrence, sort ascending by
date.  (`sort_index` is modelled by insertion sort; after deduplication the
dates are unique, so any correct sort yields the same list.) -/
def merged (existing_df new_df : List PriceRecord) : List PriceRecord :=
  List.insertionSort dateLE (dedupKeepLast (existing_df ++ new_df))

/-- `df[df.index < today]`: the same-day (partial candle) filter. -/
def sameDayFilter (df : List PriceRecord) (today : ℕ) : List PriceRecord :=
  df.filter (fun r => r.date < today)

/-- Did this fetch attempt fail?  True for a raised exception, a non-200
status, a missing/empty `result` list, an empty timestamp array, an empty
(falsy) quote dict, or unequal column lengths (a `pd.DataFrame` error caught
by the `try`).  Exactly the conditions under which `fetch_yahoo_finance`
reaches its fallback code. -/
def fetchFailed : Upstream → Bool
  | .err => true
  | .resp status chart =>
    (status ≠ 200 : Bool) ||
    (match chart with
     | none => true
     | some ch =>
       ch.timestamps.isEmpty ||
       (match ch.quote with
        | none => true
        | some q => !sameLengths ch.timestamps q))

/-- Result of one `fetch_yahoo_finance` call: the returned value (or the
raised exception as `Except.error`) together with the series written back to
the per-symbol cache file (`none` when `df.to_csv` was not reached). -/
structure FetchOut where
  result : Except String (List PriceRecord)
  saved : Option (List PriceRecord)

/-- `fetch_yahoo_finance(symbol)` (lines 47–107 of `update_data.py`) with its
cache-write effect made explicit.  `existing_df` is the parsed cache CSV; a
missing cache file and an empty one both give `[]` and behave identically in
every modelled branch (`os.path.exists` only selects the request window
`"5d"`/`"1y"`, which is subsumed in the `Upstream` outcome).  On a usable
payload: build `new_df`, merge with the cache if one exists, apply the
same-day filter, persist and return; on any failure: return the filtered
cache if non-empty, else raise. -/
def fetch_yahoo_finance_effects (existing_df : List PriceRecord)
    (up : Upstream) (today : ℕ) : FetchOut :=
  let fallback : FetchOut :=
    if existing_df.isEmpty then
      ⟨.error ("Failed to fetch data and no cache exists."), none⟩
    else ⟨.ok (sameDayFilter existing_df today), none⟩
  match up with
  | .err => fallback
  | .resp status chart =>
    if status = 200 then
      match chart with
      | some ch =>
        match ch.quote with
        | some q =>
          if ch.timestamps.isEmpty || !sameLengths ch.timestamps q then fallback
          else
            let new_df := buildRows ch.timestamps q.open_ q.high q.low q.close q.volume
            let df := if existing_df.isEmpty then new_df else merged existing_df new_df
            let df := sameDayFilter df today
            ⟨.ok df, some df⟩
        | none => fallback
      | none => fallback
    else fallback

/-- The value returned (or exception raised) by `fetch_yahoo_finance`. -/
def fetch_yahoo_finance (existing_df : List PriceRecord) (up : Upstream)
    (today : ℕ) : Except String (List PriceRecord) :=
  (fetch_yahoo_finance_effects existing_df up today).result

/-- One row of `aligned = pd.merge(sector_df, spy_df, left_index=True,
right_index=True, suffixes=('', '_spy'))`: the sector's OHLCV plus the
benchmark's OHLCV for one common date. -/
structure AlignedRow where
  date : ℕ
  open_ : ℚ
  high : ℚ
  low : ℚ
  close : ℚ
  volume : ℚ
  open_spy : ℚ
  high_spy : ℚ
  low_spy : ℚ
  close_spy : ℚ
  volume_spy : ℚ
deriving DecidableEq

/-- The inner join on date (line 173 of `update_data.py`): for each sector row
whose date also occurs in the benchmark series, pair it with the (first)
benchmark row of that date.  On unique-by-date inputs this is exactly the
pandas merge, in the left frame's order. -/
def alignJoin (sector_df spy_df : List PriceRecord) : List AlignedRow :=
  sector_df.filterMap (fun r =>
    match spy_df.find? (fun s => s.date = r.date) with
    | some s => some ⟨r.date, r.open_, r.high, r.low, r.close, r.volume,
        s.open_, s.high, s.low, s.close, s.volume⟩
    | none => none)

/-- `high_low = (aligned['high'] - aligned['low']).replace(0, 0.001)`:
the intraday range with exact zeros replaced by the epsilon 0.001. -/
def high_low (r : AlignedRow) : ℚ :=
  if r.high - r.low = 0 then 1 / 1000 else r.high - r.low

/-- Money-flow multiplier per day (line 182). -/
def mf_multiplier (r : AlignedRow) : ℚ :=
  ((r.close - r.low) - (r.high - r.close)) / high_low r

/-- Money-flow volume per day (line 183). -/
def mf_volume (r : AlignedRow) : ℚ := mf_multiplier r * r.volume

/-- The trailing 21 rows, i.e. the window of
`rolling(window=21)...iloc[-1]`. -/
def lastWindow (aligned : List AlignedRow) : List AlignedRow :=
  aligned.drop (aligned.length - 21)

/-- `cmf_21.iloc[-1]` (lines 185–186): trailing 21-day sum of money-flow
volume over trailing 21-day sum of volume. -/
def current_cmf (aligned : List AlignedRow) : ℚ :=
  ((lastWindow aligned).map mf_volume).sum /
    ((lastWindow aligned).map AlignedRow.volume).sum

/-- `rs_line = aligned['close'] / aligned['close_spy']` (line 188). -/
def rs_line (aligned : List AlignedRow) : List ℚ :=
  aligned.map (fun r => r.close / r.close_spy)

/-- Lines 190–192: `current_rs = rs_line.iloc[-1]`,
`past_rs = rs_line.iloc[-21]` (positions `n-1` and `n-21`; under the
length-≥-22 guard both are in range, so the `getD` default is never used),
and the percent change between them. -/
def rs_pct_change (aligned : List AlignedRow) : ℚ :=
  let rs := rs_line aligned
  let current_rs := rs.getD (aligned.length - 1) 0
  let past_rs := rs.getD (aligned.length - 21) 0
  ((current_rs - past_rs) / past_rs) * 100

/-- The quadrant decision chain (lines 194–205), first match wins. -/
def classify (current_cmf rs_pct_change : ℚ) : String × String :=
  if current_cmf > 0 ∧ rs_pct_change > 0 then ("Leading / Accumulation", "green")
  else if current_cmf < 0 ∧ rs_pct_change < 0 then ("Weakening / Distribution", "red")
  else if current_cmf > 0 ∧ rs_pct_change ≤ 0 then ("Improving", "orange")
  else ("Deteriorating", "yellow")

/-- Python's `round(x, ndigits)` tie-breaking: round half to even on the
scaled value (the float-representation artifacts of CPython's rounding are
outside this rational model). -/
def roundHalfEven (x : ℚ) : ℤ :=
  if x - ⌊x⌋ < 1 / 2 then ⌊x⌋
  else if 1 / 2 < x - ⌊x⌋ then ⌊x⌋ + 1
  else if ⌊x⌋ % 2 = 0 then ⌊x⌋ else ⌊x⌋ + 1

/-- `round(x, ndigits)` on a rational. -/
def pyRound (ndigits : ℕ) (x : ℚ) : ℚ :=
  (roundHalfEven (x * 10 ^ ndigits) : ℚ) / 10 ^ ndigits

/-- One entry of the published `sectors` array (lines 207–215). -/
structure IndicatorResult where
  symbol : String
  name : String
  group : String
  cmf : ℚ
  rs_momentum : ℚ
  quadrant : String
  color : String
deriving DecidableEq

/-- Everything the per-symbol loop body depends on for one tracked symbol:
its `SECTORS` entry (symbol, display name, asset-class group), its cache file
contents, and the outcome of its Yahoo request. -/
structure SectorEnv where
  symbol : String
  name : String
  group : String
  cache : List PriceRecord
  up : Upstream

/-- One iteration of the `for symbol, info in SECTORS.items()` loop body
(lines 166–218): `none` means the symbol is skipped (fetch error caught by
the `except`, or fewer than 22 aligned rows hitting the `continue`);
`some` is the dict appended to `results`. -/
def processOne (spy_df : List PriceRecord) (today : ℕ) (e : SectorEnv) :
    Option IndicatorResult :=
  match fetch_yahoo_finance e.cache e.up today with
  | .error _ => none
  | .ok sector_df =>
    let aligned := alignJoin sector_df spy_df
    if aligned.length < 22 then none
    else
      let cmf := current_cmf aligned
      let rs := rs_pct_change aligned
      let qc := classify cmf rs
      some ⟨e.symbol, e.name, e.group, pyRound 4 cmf, pyRound 2 rs, qc.1, qc.2⟩

/-- The whole symbol loop: successes in iteration order, skips absent. -/
def processSectors (spy_df : List PriceRecord) (today : ℕ)
    (envs : List SectorEnv) : List IndicatorResult :=
  envs.filterMap (processOne spy_df today)

/-- One row of the macro result / of `macro_cache.csv`. -/
structure FredObs where
  indicator : String
  value : String
  date : String
  series : String
deriving DecidableEq

/-- The fixed `series_ids` table of `get_fred_data`, in iteration order. -/
def series_ids : List (String × String) :=
  [("DGS2", "2Y Treasury Yield"),
   ("DGS10", "10Y Treasury Yield"),
   ("DGS20", "20Y Treasury Yield"),
   ("DGS30", "30Y Treasury Yield"),
   ("T10Y2Y", "Yield Curve Slope (10Y-2Y)"),
   ("T10YIE", "Inflation Expectations"),
   ("BAMLH0A0HYM2", "High Yield Credit Spreads")]

/-- Inputs of `get_fred_data`: the `FRED_API_KEY` environment variable, the
per-series request outcome (`some (value, date)` exactly when the request
returned status 200 with a non-empty `observations` list; `none` for an
exception, a bad status, or no observations), and the contents of
`macro_cache.csv` (`none` if the file does not exist). -/
structure FredEnv where
  api_key : Option String
  responses : String → Option (String × String)
  cache : Option (List FredObs)

/-- Value returned by `get_fred_data`: either the `{"error": ...}` dict that
the missing-credential branch returns, or a list of observation records. -/
inductive FredResult where
  | err (msg : String) : FredResult
  | rows (l : List FredObs) : FredResult
deriving DecidableEq

/-- `get_fred_data()` (lines 109–154 of `update_data.py`).  Missing key:
return the error dict at once.  Otherwise collect the per-series successes in
table order (per-series failures are logged and omitted); if any were
fetched return them (the wholesale overwrite of `macro_cache.csv` on this
branch is not modelled — no claim concerns it), else fall back to the macro
cache, else the empty list. -/
def get_fred_data (env : FredEnv) : FredResult :=
  match env.api_key with
  | none => .err ("FRED_API_KEY not found in environment")
  | some _ =>
    let fetched := series_ids.filterMap (fun p =>
      match env.responses p.1 with
      | some (v, d) => some (⟨p.2, v, d, p.1⟩ : FredObs)
      | none => none)
    if fetched.isEmpty then
      match env.cache with
      | some c => .rows c
      | none => .rows []
    else .rows fetched

/-- The `final_output` dict written to `dashboard_data.json`; `fred` is the
JSON key named `"macro"`. -/
structure Dashboard where
  sectors : List IndicatorResult
  fred : FredResult
  last_updated : String

/-- Everything one run of `main()` depends on. -/
structure RunEnv where
  spyCache : List PriceRecord
  spyUp : Upstream
  sectors : List SectorEnv
  fredEnv : FredEnv
  today : ℕ
  now : String

/-- `main()` (lines 156–232): fetch the SPY benchmark — on failure return
early, writing nothing (`none`); otherwise run the symbol loop, fetch macro
data, and write the assembled artifact (`some`), fully replacing any prior
one. -/
def main (env : RunEnv) : Option Dashboard :=
  match fetch_yahoo_finance env.spyCache env.spyUp env.today with
  | .error _ => none
  | .ok spy_df =>
    some ⟨processSectors spy_df env.today env.sectors,
          get_fred_data env.fredEnv, env.now⟩

/-! Concrete inputs used by counterexamples and witnesses. -/

/-- A constant one-day price record with the given date. -/
def wRec (d : ℕ) : PriceRecord := ⟨d, 1, 2, 1, 1, 1⟩

/-- 22 trading days of benchmark history, dates 0–21. -/
def wSpyDf : List PriceRecord := (List.range 22).map wRec

/-- 22 trading days of sector history, dates 0–21 (what the witness fetch
returns). -/
def wSectorDf : List PriceRecord := (List.range 22).map wRec

/-- A Yahoo payload carrying those 22 days (timestamps at second
resolution). -/
def wChart : Chart :=
  ⟨(List.range 22).map (fun i => i * 86400),
   some ⟨List.replicate 22 (some 1), List.replicate 22 (some 2),
         List.replicate 22 (some 1), List.replicate 22 (some 1),
         List.replicate 22 (some 1)⟩⟩

/-- A successful fetch attempt delivering `wChart`. -/
def wUp : Upstream := .resp 200 (some wChart)

/-- A tracked symbol with no cache and a successful fetch. -/
def wSector : SectorEnv := ⟨"XLK", "Technology", "Equities - Core Sectors", [], wUp⟩

/-- The indicator row the pipeline produces for `wSector`. -/
def wRes : IndicatorResult :=
  ⟨"XLK", "Technology", "Equities - Core Sectors", -1, 0, "Deteriorating", "yellow"⟩

/-- The aligned pair obtained from `wSectorDf` and `wSpyDf`. -/
def wAligned : List AlignedRow :=
  (List.range 22).map (fun d => ⟨d, 1, 2, 1, 1, 1, 1, 2, 1, 1, 1⟩)

/-- A macro environment with the credential absent. -/
def c1FredEnv : FredEnv := ⟨none, fun _ => none, none⟩

/-- A run with a cached benchmark, a failing benchmark fetch (degraded mode),
no tracked symbols and no FRED credential. -/
def c1Env : RunEnv := ⟨[wRec 0], .err, [], c1FredEnv, 5, "2026-01-01 00:00:00"⟩

/-- A run whose benchmark fetch fails with an empty benchmark cache. -/
def c5Env : RunEnv := ⟨[], .err, [wSector], c1FredEnv, 5, "2026-01-01 00:00:00"⟩

/-- A cached series whose day-1 record holds stale values. -/
def c3Old : List PriceRecord := [⟨0, 1, 1, 1, 1, 1⟩, ⟨1, 5, 5, 5, 5, 5⟩]

/-- A newly fetched series overlapping `c3Old` on day 1 with fresh values. -/
def c3New : List PriceRecord := [⟨1, 7, 7, 7, 7, 7⟩, ⟨2, 7, 7, 7, 7, 7⟩]

/-- A tracked symbol whose fetch attempt fails but whose one-day cache makes
the refresh succeed in degraded mode, leaving a 1-row aligned pair. -/
def c8Sector : SectorEnv :=
  ⟨"TLT", "20+ Year Treasuries (Safe Haven)", "Fixed Income", [wRec 0], .err⟩

/-- A zero-range aligned day (high = low = close). -/
def c7Row : AlignedRow := ⟨0, 1, 1, 1, 1, 5, 1, 1, 1, 1, 1⟩

/-! Helper lemmas about the fetch path. -/

/-- A failed attempt always lands in the fallback code. -/
theorem effects_of_failed (existing_df : List PriceRecord) (up : Upstream)
    (today : ℕ) (h : fetchFailed up = true) :
    fetch_yahoo_finance_effects existing_df up today =
      if existing_df.isEmpty then
        ⟨.error ("Failed to fetch data and no cache exists."), none⟩
      else ⟨.ok (sameDayFilter existing_df today), none⟩ := by
  cases up with
  | err => rfl
  | resp status chart =>
    by_cases hs : status = 200
    · subst hs
      cases chart with
      | none => rfl
      | some ch =>
        obtain ⟨ts, qopt⟩ := ch
        cases qopt with
        | none => rfl
        | some q =>
          have hc : (ts.isEmpty || !sameLengths ts q) = true := by
            simpa [fetchFailed] using h
          simp [fetch_yahoo_finance_effects, hc]
    · simp [fetch_yahoo_finance_effects, hs]

/-- A successful attempt returns the merged, filtered series and writes it
back to the cache. -/
theorem effects_of_ok (existing_df : List PriceRecord) (up : Upstream)
    (today : ℕ) (h : fetchFailed up = false) :
    ∃ df, fetch_yahoo_finance_effects existing_df up today =
      ⟨.ok df, some df⟩ := by
  cases up with
  | err => simp [fetchFailed] at h
  | resp status chart =>
    simp only [fetchFailed, Bool.or_eq_false_iff, decide_not,
      Bool.not_eq_false', decide_eq_true_eq] at h
    obtain ⟨hs, h2⟩ := h
    subst hs
    cases chart with
    | none => simp at h2
    | some ch =>
      obtain ⟨ts, qopt⟩ := ch
      cases qopt with
      | none => simp at h2
      | some q =>
        have hc : (ts.isEmpty || !sameLengths ts q) = false := by
          simpa using h2
        refine ⟨sameDayFilter
          (if existing_df.isEmpty then
            buildRows ts q.open_ q.high q.low q.close q.volume
           else merged existing_df
            (buildRows ts q.open_ q.high q.low q.close q.volume)) today, ?_⟩
        simp [fetch_yahoo_finance_effects, hc]

/-- Claim C4: the per-symbol refresh fails (raises) exactly when the upstream
request fails and no cache exists; when the upstream request fails but a
cache exists it returns the cached series with the same-day filter applied
(records dated on or after today removed) instead of failing. -/
theorem C4_refresh_error_iff_no_cache (existing_df : List PriceRecord)
    (up : Upstream) (today : ℕ) :
    ((∃ msg, fetch_yahoo_finance existing_df up today = .error msg) ↔
      (fetchFailed up = true ∧ existing_df = [])) ∧
    (fetchFailed up = true → existing_df ≠ [] →
      fetch_yahoo_finance existing_df up today =
        .ok (sameDayFilter existing_df today)) := by
  constructor
  · constructor
    · rintro ⟨msg, hmsg⟩
      cases hfail : fetchFailed up with
      | false =>
        obtain ⟨df, hdf⟩ := effects_of_ok existing_df up today hfail
        rw [fetch_yahoo_finance, hdf] at hmsg
        simp at hmsg
      | true =>
        rw [fetch_yahoo_finance, effects_of_failed _ _ _ hfail] at hmsg
        by_cases he : existing_df.isEmpty
        · exact ⟨rfl, List.isEmpty_iff.mp he⟩
        · rw [if_neg he] at hmsg
          simp at hmsg
    · rintro ⟨hfail, hnil⟩
      subst hnil
      rw [fetch_yahoo_finance, effects_of_failed _ _ _ hfail]
      exact ⟨_, rfl⟩
  · intro hfail hne
    rw [fetch_yahoo_finance, effects_of_failed _ _ _ hfail,
      if_neg (by simpa [List.isEmpty_iff] using hne)]

/-- Witness for C4: a network error with a one-record cache returns the
filtered cache. -/
theorem C4_witness :
    fetch_yahoo_finance [wRec 0] Upstream.err 5 =
      .ok (sameDayFilter [wRec 0] 5) :=
  (C4_refresh_error_iff_no_cache [wRec 0] Upstream.err 5).2 rfl (by decide)

/-- Claim C10: the per-symbol refresh writes the cache file iff the fetch
attempt succeeded; in particular on the degraded-mode path (failure with a
cache) the persisted series is left untouched. -/
theorem C10_cache_write_iff_fetch_ok (existing_df : List PriceRecord)
    (up : Upstream) (today : ℕ) :
    (fetch_yahoo_finance_effects existing_df up today).saved = none ↔
      fetchFailed up = true := by
  constructor
  · intro hnone
    cases hfail : fetchFailed up with
    | true => rfl
    | false =>
      obtain ⟨df, hdf⟩ := effects_of_ok existing_df up today hfail
      rw [hdf] at hnone
      simp at hnone
  · intro hfail
    rw [effects_of_failed _ _ _ hfail]
    split <;> rfl

/-- Witness for C10: a failed fetch over an existing cache writes nothing. -/
theorem C10_witness :
    (fetch_yahoo_finance_effects [wRec 0] Upstream.err 5).saved = none :=
  (C10_cache_write_iff_fetch_ok [wRec 0] Upstream.err 5).mpr rfl

/-- Claim C5: if the benchmark (SPY) fetch fails and no benchmark cache
exists, `main` returns before assembling or writing any dashboard artifact
(`none`: the previously published artifact is untouched). -/
theorem C5_benchmark_abort (env : RunEnv) (h1 : fetchFailed env.spyUp = true)
    (h2 : env.spyCache = []) : main env = none := by
  have hfb := effects_of_failed env.spyCache env.spyUp env.today h1
  rw [h2] at hfb
  simp [main, fetch_yahoo_finance, h2, hfb]

/-- Witness for C5: a concrete run with a cacheless failing benchmark fetch
produces no artifact. -/
theorem C5_witness : main c5Env = none := C5_benchmark_abort c5Env rfl rfl

/-- Claim C1 (counterexample): with the FRED credential absent the run does
complete, but the `macro` field of the written artifact is the one-key error
mapping, not an empty sequence as claimed. -/
theorem C1_counterexample :
    main c1Env = some ⟨[],
      FredResult.err ("FRED_API_KEY not found in environment"),
      "2026-01-01 00:00:00"⟩ ∧
    FredResult.err ("FRED_API_KEY not found in environment") ≠
      FredResult.rows [] := ⟨rfl, by decide⟩

/-- Claim C1 (amended): if the FRED credential is absent and the run
completes, the `macro` field of the published snapshot is the error mapping
`{"error": "FRED_API_KEY not found in environment"}` (an empty sequence only
in the sense of carrying no observations), and the `sectors` portion is still
computed and written normally. -/
theorem C1_missing_key_error_dict (env : RunEnv) (d : Dashboard)
    (hk : env.fredEnv.api_key = none) (hm : main env = some d) :
    d.fred = FredResult.err ("FRED_API_KEY not found in environment") ∧
    ∃ spy_df, fetch_yahoo_finance env.spyCache env.spyUp env.today = .ok spy_df ∧
      d.sectors = processSectors spy_df env.today env.sectors := by
  unfold main at hm
  cases hf : fetch_yahoo_finance env.spyCache env.spyUp env.today with
  | error e =>
    rw [hf] at hm
    exact absurd hm (by simp)
  | ok spy_df =>
    rw [hf] at hm
    obtain rfl : (⟨processSectors spy_df env.today env.sectors,
        get_fred_data env.fredEnv, env.now⟩ : Dashboard) = d :=
      Option.some.inj hm
    refine ⟨?_, spy_df, hf ▸ rfl, rfl⟩
    show get_fred_data env.fredEnv = _
    unfold get_fred_data
    rw [hk]

/-- Witness for the amended C1, at the counterexample's run. -/
theorem C1_witness :
    (⟨[], FredResult.err ("FRED_API_KEY not found in environment"),
      "2026-01-01 00:00:00"⟩ : Dashboard).fred =
      FredResult.err ("FRED_API_KEY not found in environment") ∧
    ∃ spy_df,
      fetch_yahoo_finance c1Env.spyCache c1Env.spyUp c1Env.today = .ok spy_df ∧
      (⟨[], FredResult.err ("FRED_API_KEY not found in environment"),
        "2026-01-01 00:00:00"⟩ : Dashboard).sectors =
        processSectors spy_df c1Env.today c1Env.sectors :=
  C1_missing_key_error_dict c1Env
    ⟨[], FredResult.err ("FRED_API_KEY not found in environment"),
      "2026-01-01 00:00:00"⟩ rfl rfl

/-! Merge lemmas (claim C3). -/

/-- Deduplication only keeps rows of the input. -/
theorem mem_of_mem_dedupKeepLast {l : List PriceRecord} {r : PriceRecord}
    (h : r ∈ dedupKeepLast l) : r ∈ l := by
  induction l with
  | nil => simp [dedupKeepLast] at h
  | cons a l ih =>
    unfold dedupKeepLast at h
    split at h
    · exact List.mem_cons_of_mem _ (ih h)
    · rcases List.mem_cons.mp h with rfl | h'
      · exact List.mem_cons_self _ _
      · exact List.mem_cons_of_mem _ (ih h')

/-- After deduplication the dates are pairwise distinct. -/
theorem dedup_dates_nodup (l : List PriceRecord) :
    ((dedupKeepLast l).map PriceRecord.date).Nodup := by
  induction l with
  | nil => simp [dedupKeepLast]
  | cons a l ih =>
    unfold dedupKeepLast
    split
    · exact ih
    · rename_i hno
      simp only [List.map_cons, List.nodup_cons]
      refine ⟨?_, ih⟩
      intro hmem
      obtain ⟨s, hs, hdate⟩ := List.mem_map.mp hmem
      exact hno (List.any_eq_true.mpr
        ⟨s, mem_of_mem_dedupKeepLast hs, by simpa using hdate⟩)

/-- A deduplicated record whose date occurs in the newly fetched block is
itself one of the newly fetched records (the later occurrence wins). -/
theorem dedup_keeps_new (old new : List PriceRecord) (r : PriceRecord)
    (h : r ∈ dedupKeepLast (old ++ new))
    (hd : r.date ∈ new.map PriceRecord.date) : r ∈ new := by
  induction old with
  | nil => exact mem_of_mem_dedupKeepLast (by simpa using h)
  | cons a old ih =>
    rw [List.cons_append] at h
    unfold dedupKeepLast at h
    split at h
    · exact ih h
    · rename_i hno
      rcases List.mem_cons.mp h with rfl | h'
      · exfalso
        obtain ⟨s, hs, hdate⟩ := List.mem_map.mp hd
        exact hno (List.any_eq_true.mpr
          ⟨s, List.mem_append_right old hs, by simpa using hdate⟩)
      · exact ih h'

/-- Claim C3: merging a cached series with a newly fetched one yields no
duplicate dates, strictly ascending date order, and every merged record whose
date occurs in the newly fetched series (in particular every date present in
both inputs) is the newly fetched record, not the cached one. -/
theorem C3_merge_dedup_sorted_fresh (existing_df new_df : List PriceRecord) :
    ((merged existing_df new_df).map PriceRecord.date).Nodup ∧
    (merged existing_df new_df).Pairwise (fun a b => a.date < b.date) ∧
    (∀ r ∈ merged existing_df new_df,
      r.date ∈ new_df.map PriceRecord.date → r ∈ new_df) := by
  have hperm : (merged existing_df new_df).Perm
      (dedupKeepLast (existing_df ++ new_df)) :=
    List.perm_insertionSort dateLE _
  have hnodup : ((merged existing_df new_df).map PriceRecord.date).Nodup :=
    ((hperm.map PriceRecord.date).nodup_iff).mpr (dedup_dates_nodup _)
  refine ⟨hnodup, ?_, ?_⟩
  · have hsorted : (merged existing_df new_df).Pairwise dateLE :=
      List.sorted_insertionSort dateLE _
    have hne : (merged existing_df new_df).Pairwise
        (fun a b => a.date ≠ b.date) := List.pairwise_map.mp hnodup
    exact (hsorted.and hne).imp (fun h => Nat.lt_of_le_of_ne h.1 h.2)
  · intro r hr hd
    exact dedup_keeps_new _ _ r (hperm.subset hr) hd

/-- Witness for C3: the overlapping day-1 record of the merge of `c3Old` and
`c3New` comes from `c3New`. -/
theorem C3_witness : (⟨1, 7, 7, 7, 7, 7⟩ : PriceRecord) ∈ c3New :=
  (C3_merge_dedup_sorted_fresh c3Old c3New).2.2 ⟨1, 7, 7, 7, 7, 7⟩
    (by decide) (by decide)

/-! Alignment lemmas (claim C9). -/

/-- The aligned dates are a sublist of the sector's dates. -/
theorem alignJoin_dates_sublist (sector_df spy_df : List PriceRecord) :
    ((alignJoin sector_df spy_df).map AlignedRow.date).Sublist
      (sector_df.map PriceRecord.date) := by
  induction sector_df with
  | nil => simp [alignJoin]
  | cons r rest ih =>
    simp only [alignJoin] at ih ⊢
    rw [List.filterMap_cons]
    cases hfind : spy_df.find? (fun s => s.date = r.date) with
    | none =>
      simpa using ih.cons r.date
    | some s =>
      simpa using ih.cons₂ r.date

/-- Every aligned row's date occurs in both input series. -/
theorem alignJoin_mem_both (sector_df spy_df : List PriceRecord)
    (a : AlignedRow) (ha : a ∈ alignJoin sector_df spy_df) :
    a.date ∈ sector_df.map PriceRecord.date ∧
    a.date ∈ spy_df.map PriceRecord.date := by
  obtain ⟨r, hr, hfr⟩ := List.mem_filterMap.mp ha
  cases hfind : spy_df.find? (fun s => s.date = r.date) with
  | none => rw [hfind] at hfr; cases hfr
  | some s =>
    rw [hfind] at hfr
    obtain rfl := Option.some.inj hfr
    have hs : s ∈ spy_df := List.mem_of_find?_eq_some hfind
    have hpred : s.date = r.date := by
      simpa using List.find?_some hfind
    exact ⟨List.mem_map.mpr ⟨r, hr, rfl⟩,
      List.mem_map.mpr ⟨s, hs, hpred⟩⟩

/-- Claim C9: the inner join is never longer than the shorter input (given
the data-model invariant that the sector series has unique dates), and every
output date is present in both inputs. -/
theorem C9_align_bounds (sector_df spy_df : List PriceRecord)
    (hs : (sector_df.map PriceRecord.date).Nodup) :
    (alignJoin sector_df spy_df).length ≤
      min sector_df.length spy_df.length ∧
    ∀ a ∈ alignJoin sector_df spy_df,
      a.date ∈ sector_df.map PriceRecord.date ∧
      a.date ∈ spy_df.map PriceRecord.date := by
  refine ⟨?_, fun a ha => alignJoin_mem_both _ _ a ha⟩
  have h1 : (alignJoin sector_df spy_df).length ≤ sector_df.length := by
    have := (alignJoin_dates_sublist sector_df spy_df).length_le
    simpa using this
  have h2 : (alignJoin sector_df spy_df).length ≤ spy_df.length := by
    have hnd : ((alignJoin sector_df spy_df).map AlignedRow.date).Nodup :=
      (alignJoin_dates_sublist sector_df spy_df).nodup hs
    have hsub : ((alignJoin sector_df spy_df).map AlignedRow.date) ⊆
        spy_df.map PriceRecord.date := by
      intro d hd
      obtain ⟨a, ha, rfl⟩ := List.mem_map.mp hd
      exact (alignJoin_mem_both _ _ a ha).2
    have := (hnd.subperm hsub).length_le
    simpa using this
  exact le_min h1 h2

/-- Witness for C9, on two concrete 2-day series overlapping on one date. -/
theorem C9_witness :
    (alignJoin c3Old c3New).length ≤ min c3Old.length c3New.length ∧
    ∀ a ∈ alignJoin c3Old c3New,
      a.date ∈ c3Old.map PriceRecord.date ∧
      a.date ∈ c3New.map PriceRecord.date :=
  C9_align_bounds c3Old c3New (by decide)

/-! Skip-on-short-history lemmas (claim C8). -/

/-- A produced indicator row carries its symbol unchanged. -/
theorem processOne_symbol (spy_df : List PriceRecord) (today : ℕ)
    (e : SectorEnv) (r : IndicatorResult)
    (h : processOne spy_df today e = some r) : r.symbol = e.symbol := by
  unfold processOne at h
  cases hf : fetch_yahoo_finance e.cache e.up today with
  | error msg => rw [hf] at h; cases h
  | ok df =>
    rw [hf] at h
    simp only [] at h
    by_cases hlen : (alignJoin df spy_df).length < 22
    · rw [if_pos hlen] at h; cases h
    · rw [if_neg hlen] at h
      obtain rfl := Option.some.inj h
      rfl

/-- Every symbol in the loop's output comes from the input universe. -/
theorem processSectors_symbol_mem (spy_df : List PriceRecord) (today : ℕ)
    (envs : List SectorEnv) (r : IndicatorResult)
    (hr : r ∈ processSectors spy_df today envs) :
    r.symbol ∈ envs.map SectorEnv.symbol := by
  obtain ⟨e, he, hpe⟩ := List.mem_filterMap.mp hr
  exact List.mem_map.mpr ⟨e, he, (processOne_symbol _ _ _ _ hpe).symm⟩

/-- Claim C8: a symbol whose aligned pair has fewer than 22 rows is a
non-fatal skip — its loop iteration yields nothing, the loop's output is the
output on the remaining symbols, and (if no other tracked symbol shares its
ticker) it is absent from the snapshot's `sectors`. -/
theorem C8_short_aligned_skip (spy_df : List PriceRecord) (today : ℕ)
    (e : SectorEnv) (sector_df : List PriceRecord) (rest : List SectorEnv)
    (hf : fetch_yahoo_finance e.cache e.up today = .ok sector_df)
    (hlen : (alignJoin sector_df spy_df).length < 22) :
    processOne spy_df today e = none ∧
    processSectors spy_df today (e :: rest) = processSectors spy_df today rest ∧
    (e.symbol ∉ rest.map SectorEnv.symbol →
      e.symbol ∉ (processSectors spy_df today (e :: rest)).map
        IndicatorResult.symbol) := by
  have hone : processOne spy_df today e = none := by
    unfold processOne
    rw [hf]
    simp only []
    rw [if_pos hlen]
  have h2 : processSectors spy_df today (e :: rest) =
      processSectors spy_df today rest := by
    simp [processSectors, List.filterMap_cons, hone]
  refine ⟨hone, h2, fun hnot hmem => hnot ?_⟩
  rw [h2] at hmem
  obtain ⟨r, hr, hsym⟩ := List.mem_map.mp hmem
  have hmem' := processSectors_symbol_mem _ _ _ r hr
  rw [hsym] at hmem'
  exact hmem'

/-- Witness for C8: a degraded-mode 1-day series against the 22-day benchmark
is skipped. -/
theorem C8_witness :
    processOne wSpyDf 5 c8Sector = none ∧
    processSectors wSpyDf 5 [c8Sector] = processSectors wSpyDf 5 [] ∧
    ("TLT" ∉ ([] : List SectorEnv).map SectorEnv.symbol →
      "TLT" ∉ (processSectors wSpyDf 5 [c8Sector]).map
        IndicatorResult.symbol) :=
  C8_short_aligned_skip wSpyDf 5 c8Sector [wRec 0] [] rfl (by decide)

/-! Classifier (claim C6). -/

/-- Claim C6: the classifier is total over the four fixed (label, color)
pairs; each decision-table row (in branch order, first match winning) yields
its stated pair; and the boundary `cmf = 0`, `rsMomentum = 0` lands in
Deteriorating / yellow. -/
theorem C6_classify_total_and_boundary :
    (∀ c r : ℚ,
      classify c r = ("Leading / Accumulation", "green") ∨
      classify c r = ("Weakening / Distribution", "red") ∨
      classify c r = ("Improving", "orange") ∨
      classify c r = ("Deteriorating", "yellow")) ∧
    (∀ c r : ℚ, 0 < c → 0 < r →
      classify c r = ("Leading / Accumulation", "green")) ∧
    (∀ c r : ℚ, c < 0 → r < 0 →
      classify c r = ("Weakening / Distribution", "red")) ∧
    (∀ c r : ℚ, 0 < c → r ≤ 0 → classify c r = ("Improving", "orange")) ∧
    (∀ c r : ℚ, c ≤ 0 → 0 < r → classify c r = ("Deteriorating", "yellow")) ∧
    classify 0 0 = ("Deteriorating", "yellow") := by
  refine ⟨?_, ?_, ?_, ?_, ?_, ?_⟩
  · intro c r
    unfold classify
    split_ifs <;> simp
  · intro c r h1 h2
    unfold classify
    split_ifs with hA hB hC <;> first | rfl | exact absurd ⟨h1, h2⟩ hA
  · intro c r h1 h2
    unfold classify
    split_ifs with hA hB hC
    · exact absurd hA.1 (lt_asymm h1)
    · rfl
    · exact absurd ⟨h1, h2⟩ hB
    · exact absurd ⟨h1, h2⟩ hB
  · intro c r h1 h2
    unfold classify
    split_ifs with hA hB hC
    · exact absurd hA.2 (not_lt.mpr h2)
    · exact absurd h1 (lt_asymm hB.1)
    · rfl
    · exact absurd ⟨h1, h2⟩ hC
  · intro c r h1 h2
    unfold classify
    split_ifs with hA hB hC
    · exact absurd hA.1 (not_lt.mpr h1)
    · exact absurd h2 (lt_asymm hB.2)
    · exact absurd hC.1 (not_lt.mpr h1)
    · rfl
  · rfl

/-- Witness for C6: one concrete point per decision-table row. -/
theorem C6_witness :
    classify 1 1 = ("Leading / Accumulation", "green") ∧
    classify (-1) (-1) = ("Weakening / Distribution", "red") ∧
    classify 1 (-1) = ("Improving", "orange") ∧
    classify (-1) 1 = ("Deteriorating", "yellow") :=
  ⟨C6_classify_total_and_boundary.2.1 1 1 (by norm_num) (by norm_num),
   C6_classify_total_and_boundary.2.2.1 (-1) (-1) (by norm_num) (by norm_num),
   C6_classify_total_and_boundary.2.2.2.1 1 (-1) (by norm_num) (by norm_num),
   C6_classify_total_and_boundary.2.2.2.2.1 (-1) 1 (by norm_num) (by norm_num)⟩

/-! Zero-range day (claim C7). -/

/-- Claim C7: on a valid zero-range day (low ≤ close ≤ high, high = low) the
money-flow multiplier raises no division error — the denominator is the
substituted epsilon 0.001 (= 1/1000, nonzero), and the multiplier is exactly
0 (biased toward zero, not infinity). -/
theorem C7_zero_range_multiplier (r : AlignedRow) (h1 : r.low ≤ r.close)
    (h2 : r.close ≤ r.high) (h0 : r.high = r.low) :
    high_low r = 1 / 1000 ∧ mf_multiplier r = 0 := by
  have hz : r.high - r.low = 0 := by rw [h0]; ring
  have hl : high_low r = 1 / 1000 := by unfold high_low; rw [if_pos hz]
  refine ⟨hl, ?_⟩
  have hcl : r.close = r.low := le_antisymm (h0 ▸ h2) h1
  unfold mf_multiplier
  rw [hcl, h0]
  simp

/-- Witness for C7: a concrete zero-range day. -/
theorem C7_witness : high_low c7Row = 1 / 1000 ∧ mf_multiplier c7Row = 0 :=
  C7_zero_range_multiplier c7Row (by norm_num [c7Row]) (by norm_num [c7Row])
    (by norm_num [c7Row])

/-! RS momentum (claim C2). -/

/-- The RS line's entry at the last position is the last aligned row's
sector-close over benchmark-close ratio. -/
theorem rs_line_getD_last (aligned : List AlignedRow) (lastRow : AlignedRow)
    (h : aligned.getLast? = some lastRow) :
    (rs_line aligned).getD (aligned.length - 1) 0 =
      lastRow.close / lastRow.close_spy := by
  rw [List.getD_eq_getElem?_getD, rs_line, List.getElem?_map]
  rw [List.getLast?_eq_getElem?] at h
  rw [h]
  rfl

/-- Claim C2: for an aligned pair of at least 22 rows, the published
`rs_momentum` is `(current - past) / past * 100` rounded to 2 decimals once
at the end, where `current` is the RS line's value at the last position
(`iloc[-1]`, the sector close over the benchmark close on the latest common
date) and `past` is its value at position `length - 21` (`iloc[-21]`, the
21st observation counting back with the latest as the first — the spec's
"21 observations earlier", its accepted index-based approximation of 20
trading days). -/
theorem C2_rs_momentum_formula (spy_df : List PriceRecord) (today : ℕ)
    (e : SectorEnv) (sector_df : List PriceRecord) (res : IndicatorResult)
    (hf : fetch_yahoo_finance e.cache e.up today = .ok sector_df)
    (hres : processOne spy_df today e = some res)
    (hlen : 22 ≤ (alignJoin sector_df spy_df).length) :
    res.rs_momentum =
      pyRound 2
        ((((rs_line (alignJoin sector_df spy_df)).getD
              ((alignJoin sector_df spy_df).length - 1) 0 -
            (rs_line (alignJoin sector_df spy_df)).getD
              ((alignJoin sector_df spy_df).length - 21) 0) /
          (rs_line (alignJoin sector_df spy_df)).getD
              ((alignJoin sector_df spy_df).length - 21) 0) * 100) ∧
    ∀ lastRow, (alignJoin sector_df spy_df).getLast? = some lastRow →
      (rs_line (alignJoin sector_df spy_df)).getD
          ((alignJoin sector_df spy_df).length - 1) 0 =
        lastRow.close / lastRow.close_spy := by
  refine ⟨?_, fun lastRow hl => rs_line_getD_last _ lastRow hl⟩
  unfold processOne at hres
  rw [hf] at hres
  simp only [] at hres
  rw [if_neg (not_lt.mpr hlen)] at hres
  obtain rfl := Option.some.inj hres
  rfl

/-- The shape of a successful loop iteration. -/
theorem processOne_eq_of_ok (spy_df : List PriceRecord) (today : ℕ)
    (e : SectorEnv) (sector_df : List PriceRecord)
    (hf : fetch_yahoo_finance e.cache e.up today = .ok sector_df)
    (hlen : ¬(alignJoin sector_df spy_df).length < 22) :
    processOne spy_df today e =
      some ⟨e.symbol, e.name, e.group,
        pyRound 4 (current_cmf (alignJoin sector_df spy_df)),
        pyRound 2 (rs_pct_change (alignJoin sector_df spy_df)),
        (classify (current_cmf (alignJoin sector_df spy_df))
            (rs_pct_change (alignJoin sector_df spy_df))).1,
        (classify (current_cmf (alignJoin sector_df spy_df))
            (rs_pct_change (alignJoin sector_df spy_df))).2⟩ := by
  unfold processOne
  rw [hf]
  simp only []
  rw [if_neg hlen]

/-- Witness for C2, on a concrete 22-day aligned pair. -/
theorem C2_witness :
    wRes.rs_momentum =
      pyRound 2
        ((((rs_line (alignJoin wSectorDf wSpyDf)).getD
              ((alignJoin wSectorDf wSpyDf).length - 1) 0 -
            (rs_line (alignJoin wSectorDf wSpyDf)).getD
              ((alignJoin wSectorDf wSpyDf).length - 21) 0) /
          (rs_line (alignJoin wSectorDf wSpyDf)).getD
              ((alignJoin wSectorDf wSpyDf).length - 21) 0) * 100) ∧
    ∀ lastRow, (alignJoin wSectorDf wSpyDf).getLast? = some lastRow →
      (rs_line (alignJoin wSectorDf wSpyDf)).getD
          ((alignJoin wSectorDf wSpyDf).length - 1) 0 =
        lastRow.close / lastRow.close_spy :=
  C2_rs_momentum_formula wSpyDf 22 wSector wSectorDf wRes
    (rfl : fetch_yahoo_finance wSector.cache wSector.up 22 = Except.ok wSectorDf)
    (by
      rw [processOne_eq_of_ok wSpyDf 22 wSector wSectorDf
        (rfl : fetch_yahoo_finance wSector.cache wSector.up 22 = Except.ok wSectorDf)
        (by decide),
        (by decide : alignJoin wSectorDf wSpyDf = wAligned),
        (by norm_num [current_cmf, lastWindow, wAligned, mf_volume,
          mf_multiplier, high_low, List.range_succ] :
            current_cmf wAligned = -1),
        (by norm_num [rs_pct_change, rs_line, wAligned, List.range_succ] :
            rs_pct_change wAligned = 0),
        (by norm_num [pyRound, roundHalfEven] : pyRound 4 (-1 : ℚ) = -1),
        (by norm_num [pyRound, roundHalfEven] : pyRound 2 (0 : ℚ) = 0),
        (by unfold classify; norm_num :
            classify (-1 : ℚ) 0 = ("Deteriorating", "yellow"))]
      rfl)
    (by decide)

end SectorMoneyFlow
